import Mathlib

/-!
Shallow embedding of `src/extractors.rs` (the admin authentication guard of
aode-relay): the `X-Api-Token` header codec, the `AdminConfig` secret store,
the `Admin` guard state machine, and the error taxonomy with its HTTP status
mapping.

Rust strings are modelled as their UTF-8 byte sequences (`RStr := List Nat`,
each entry a byte value), because the header-codec behaviour of the `http`
crate is byte-level: `HeaderValue::from_str` accepts any byte `b` with
`b >= 32 && b != 127 || b == 9`, while `HeaderValue::to_str` accepts only
visible ASCII (`32 <= b < 127`) and tab.
-/

/-- A Rust string / byte buffer, as its list of byte values. -/
abbrev RStr : Type := List Nat

deriving instance DecidableEq for Except

/-- `http::header::HeaderValue` byte validity, as in `HeaderValue::from_str`
(the `is_valid` predicate of the `http` crate): every byte at least 32 and
not 127, or a tab. Bytes 128..255 are accepted. -/
def isValidHeaderByte (b : Nat) : Bool :=
  (32 ≤ b && b ≠ 127) || b == 9

/-- `HeaderValue::to_str` byte validity (the `is_visible_ascii` predicate of
the `http` crate): visible ASCII (32..126) or tab. Bytes 128..255 are
rejected. -/
def isVisibleAsciiByte (b : Nat) : Bool :=
  (32 ≤ b && b < 127) || b == 9

/-- `HeaderValue::to_str`: succeeds (returning the same bytes, which are then
ASCII hence valid UTF-8) exactly when every byte is visible ASCII or tab. -/
def headerValueToStr (v : RStr) : Option RStr :=
  if v.all isVisibleAsciiByte then some v else none

/-- `http_signature_normalization_actix::prelude::InvalidHeaderValue`
(the error of `HeaderValue::from_str`). -/
structure InvalidHeaderValue : Type where
deriving DecidableEq

/-- `HeaderValue::from_str`: succeeds exactly when every byte satisfies
`isValidHeaderByte`, keeping the bytes unchanged. -/
def headerValueFromStr (s : RStr) : Except InvalidHeaderValue RStr :=
  if s.all isValidHeaderByte then .ok s else .error ⟨⟩

/-! ## The bcrypt crate (external primitive)

`bcrypt::hash(password, cost)` and `bcrypt::verify(password, hash)`.
The hash-string format and its parser (`split_hash`) are modelled from the
crate: a bcrypt hash string is `$<version>$<cost>$<22-byte salt><31-byte
checksum>`; parsing splits on `$` (byte 36), drops empty segments, and
requires exactly three segments: a version among `2y`,`2b`,`2a`,`2x`, a
decimal cost fitting in a `u32`, and a 53-byte remainder.

The raw Blowfish-EKS digest is abstracted as `bcryptDigest`, a deterministic
executable function of (password, salt, cost) producing 31 bytes in the
ASCII range 65..90 (so the digest never contains `$` and is always visible
ASCII); the claims under verification depend only on determinism and on the
hash-string format, never on the internal structure of the digest. The
random salt drawn by `bcrypt::hash` is surfaced as an explicit argument. -/

/-- `bcrypt::BcryptError` (the variants reachable from this code). -/
inductive BcryptError : Type where
  | invalidHash (h : RStr)
  | invalidPrefix (v : RStr)
  | invalidCost (c : RStr)
  | costNotAllowed (c : Nat)
deriving DecidableEq

/-- The parsed parts of a bcrypt hash string (crate struct `HashParts`). -/
structure HashParts : Type where
  cost : Nat
  salt : RStr
  hash : RStr
deriving DecidableEq

/-- Rust `str::split('$')` on a byte string: splits at every byte 36,
keeping empty segments. -/
def splitDollar (s : RStr) : List RStr :=
  s.foldr
    (fun b acc =>
      if b == 36 then [] :: acc
      else
        match acc with
        | [] => [[b]]
        | h :: t => (b :: h) :: t)
    [[]]

/-- Rust `str::parse::<u32>()` on a byte string: all decimal digits,
nonempty, value below 2^32. -/
def parseU32 (s : RStr) : Option Nat :=
  if !s.isEmpty && s.all (fun b => 48 ≤ b && b ≤ 57) then
    let v := s.foldl (fun a b => a * 10 + (b - 48)) 0
    if v < 4294967296 then some v else none
  else none

/-- The bcrypt crate's `split_hash`: parse a hash string into its parts, or
fail with an `InvalidHash`/`InvalidPrefix`/`InvalidCost` error. -/
def splitHash (hashStr : RStr) : Except BcryptError HashParts :=
  match (splitDollar hashStr).filter (fun p => !p.isEmpty) with
  | [v, c, rest] =>
    if v == [50, 121] || v == [50, 98] || v == [50, 97] || v == [50, 120] then
      match parseU32 c with
      | some cost =>
        if rest.length == 53 then .ok ⟨cost, rest.take 22, rest.drop 22⟩
        else .error (.invalidHash hashStr)
      | none => .error (.invalidCost c)
    else .error (.invalidPrefix v)
  | _ => .error (.invalidHash hashStr)

/-- Modelled external primitive: the raw bcrypt digest, abstracted as a
deterministic function of (password, salt, cost) producing 31 bytes in
65..90. Only determinism and the output shape matter to the claims. -/
def bcryptDigest (password salt : RStr) (cost : Nat) : RStr :=
  let p := password.foldl (fun a b => a * 31 + b) 7
  let q := salt.foldl (fun a b => a * 37 + b) 11
  (List.range 31).map (fun i => 65 + ((p + q + cost * 131 + i * 17) % 26))

/-- Format a bcrypt hash string: `$2b$<2-digit cost>$<salt><digest>`
(the crate's `format_for_version` for the `2b` version; the cost is
zero-padded to two digits, enough for the crate's allowed range 4..=31). -/
def formatHashParts (p : HashParts) : RStr :=
  [36, 50, 98, 36, 48 + p.cost / 10, 48 + p.cost % 10, 36] ++ p.salt ++ p.hash

/-- `bcrypt::hash(password, cost)` with the random salt made explicit:
rejects a cost outside 4..=31, otherwise formats the digest with the salt. -/
def bcryptHash (password : RStr) (cost : Nat) (salt : RStr) :
    Except BcryptError RStr :=
  if cost < 4 || 31 < cost then .error (.costNotAllowed cost)
  else .ok (formatHashParts ⟨cost, salt, bcryptDigest password salt cost⟩)

/-- `bcrypt::verify(password, hash)`: parse the hash string, recompute the
digest of `password` with the parsed salt and cost, and compare digests.
Errors only when parsing fails or the parsed cost is out of range — a
mismatch is the normal `Ok false`. -/
def bcryptVerify (password hashStr : RStr) : Except BcryptError Bool :=
  match splitHash hashStr with
  | .error e => .error e
  | .ok parts =>
    if parts.cost < 4 || 31 < parts.cost then .error (.costNotAllowed parts.cost)
    else .ok (bcryptDigest password parts.salt parts.cost == parts.hash)

/-- `bcrypt::DEFAULT_COST`. -/
def DEFAULT_COST : Nat := 12

/-! ## The X-Api-Token header codec (`XApiToken`, lines 162-194) -/

/-- `actix_web::error::ParseError`; only the `Header` variant is reachable
from this code (`from_one_raw_str` produces no other). -/
inductive ParseError : Type where
  | header
deriving DecidableEq

/-- `std::convert::Infallible`: the uninhabited error type of
`<XApiToken as FromStr>`. -/
def Infallible : Type := Empty

/-- `struct XApiToken(String)` (line 162). -/
structure XApiToken : Type where
  val : RStr
deriving DecidableEq

/-- `<XApiToken as FromStr>::from_str` (lines 188-194): infallible, keeps
the string verbatim (`Ok(XApiToken(s.to_string()))`). -/
def XApiToken.from_str (s : RStr) : Except Infallible XApiToken :=
  .ok ⟨s⟩

/-- `XApiToken::name()` (lines 171-173): the lowercase header name
`x-api-token` as bytes. -/
def xApiTokenName : RStr :=
  [120, 45, 97, 112, 105, 45, 116, 111, 107, 101, 110]

/-- `actix_web::http::header::from_one_raw_str` specialised at `XApiToken`:
`None` or a value rejected by `to_str` yields `ParseError::Header`;
otherwise the infallible `FromStr` succeeds. -/
def from_one_raw_str (val : Option RStr) : Except ParseError XApiToken :=
  match val with
  | none => .error .header
  | some line =>
    match headerValueToStr line with
    | none => .error .header
    | some s =>
      match XApiToken.from_str s with
      | .ok t => .ok t
      | .error e => nomatch e

/-- `<XApiToken as TryIntoHeaderValue>::try_into_value` (lines 180-186):
`HeaderValue::from_str(&self.0)`. -/
def XApiToken.try_into_value (t : XApiToken) : Except InvalidHeaderValue RStr :=
  headerValueFromStr t.val

/-! ## Application context and the request model

An `HttpRequest` is modelled by the three pieces of it this code reads:
the `Data<AdminConfig>` app data slot, the `Data<Db>` app data slot, and the
header map. Headers are a list of (lowercase name, raw value bytes) pairs in
arrival order; actix's `HeaderMap::get` returns the first value inserted for
a name, modelled by `headersGet`. `Data<T>` (a shared `Arc` handle) is
modelled as the value itself, `Option`-al for presence in app data. -/

/-- `crate::db::Db`: external collaborator, opaque to this module; modelled
as a tagged handle. -/
structure Db : Type where
  id : Nat
deriving DecidableEq

/-- `struct AdminConfig { hashed_api_token: String }` (lines 22-25). -/
structure AdminConfig : Type where
  hashed_api_token : RStr
deriving DecidableEq

/-- The slice of an actix `HttpRequest` read by this module. -/
structure HttpRequest : Type where
  app_admin_config : Option AdminConfig
  app_db : Option Db
  headers : List (RStr × RStr)

/-- actix `HeaderMap::get`: the first value inserted for the name. -/
def headersGet (hs : List (RStr × RStr)) (name : RStr) : Option RStr :=
  (hs.find? (fun p => p.1 == name)).map (fun p => p.2)

/-- `<XApiToken as Header>::parse` (lines 175-177):
`from_one_raw_str(msg.headers().get(Self::name()))`. -/
def XApiToken.parse (req : HttpRequest) : Except ParseError XApiToken :=
  from_one_raw_str (headersGet req.headers xApiTokenName)

/-! ## Error taxonomy (lines 66-151)

The source `Error` also carries a `tracing_error::SpanTrace` (line 69),
capturing the tracing span context; it does not influence control flow,
the status code, or the response body, and is not modelled. -/

/-- `enum ErrorKind` (lines 118-137). -/
inductive ErrorKind : Type where
  | invalid
  | missingConfig
  | missingDb
  | bCryptVerify (e : BcryptError)
  | bCryptHash (e : BcryptError)
  | parseHeader (e : ParseError)
deriving DecidableEq

/-- `struct Error { context: SpanTrace, kind: ErrorKind }` (lines 66-72),
with the span trace dropped. -/
structure Error : Type where
  kind : ErrorKind
deriving DecidableEq

/-- `Error::invalid()` (lines 75-80). -/
def Error.invalid : Error := ⟨.invalid⟩

/-- `Error::missing_config()` (lines 82-87). -/
def Error.missing_config : Error := ⟨.missingConfig⟩

/-- `Error::missing_db()` (lines 89-94). -/
def Error.missing_db : Error := ⟨.missingDb⟩

/-- `Error::bcrypt_verify(e)` (lines 96-101). -/
def Error.bcrypt_verify (e : BcryptError) : Error := ⟨.bCryptVerify e⟩

/-- `Error::bcrypt_hash(e)` (lines 103-108). -/
def Error.bcrypt_hash (e : BcryptError) : Error := ⟨.bCryptHash e⟩

/-- `Error::parse_header(e)` (lines 110-115). -/
def Error.parse_header (e : ParseError) : Error := ⟨.parseHeader e⟩

/-- The `thiserror` display string of each `ErrorKind` variant, from its
`#[error("...")]` attribute (lines 120-136); payloads are source errors in
the chain, not part of the display string. -/
def ErrorKind.display : ErrorKind → String
  | .invalid => "Invalid API Token"
  | .missingConfig => "Missing Config"
  | .missingDb => "Missing Db"
  | .bCryptVerify _ => "Verifying"
  | .bCryptHash _ => "Hashing"
  | .parseHeader _ => "Parse Header"

/-- The constructor tag of an `ErrorKind`, used to say that two kinds are
the same variant irrespective of their payloads. -/
def ErrorKind.tag : ErrorKind → Nat
  | .invalid => 0
  | .missingConfig => 1
  | .missingDb => 2
  | .bCryptVerify _ => 3
  | .bCryptHash _ => 4
  | .parseHeader _ => 5

/-- `<Error as ResponseError>::status_code` (lines 140-145):
`Invalid | ParseHeader(_)` map to 400, everything else to 500. -/
def Error.status_code (e : Error) : Nat :=
  match e.kind with
  | .invalid => 400
  | .parseHeader _ => 400
  | _ => 500

/-- A JSON value, enough for the guard's response bodies. -/
inductive Json : Type where
  | str (s : String)
  | obj (fields : List (String × Json))

/-- An HTTP response: status code plus JSON body. -/
structure HttpResponse : Type where
  status : Nat
  body : Json

/-- `<Error as ResponseError>::error_response` (lines 147-151):
`json!({ "msg": self.kind.to_string() })` under `self.status_code()`. -/
def Error.error_response (e : Error) : HttpResponse :=
  ⟨e.status_code, Json.obj [("msg", Json.str (e.kind.display))]⟩

/-! ## AdminConfig and the Admin guard (lines 27-64, 153-160) -/

/-- `AdminConfig::build` (lines 28-32): `bcrypt::hash(api_token,
DEFAULT_COST)`, with the random salt surfaced as an argument; a primitive
failure becomes `Error::bcrypt_hash`. -/
def AdminConfig.build (api_token : RStr) (salt : RStr) :
    Except Error AdminConfig :=
  match bcryptHash api_token DEFAULT_COST salt with
  | .ok h => .ok ⟨h⟩
  | .error e => .error (Error.bcrypt_hash e)

/-- `AdminConfig::verify` (lines 34-36): the source passes
`(&self.hashed_api_token, &token.0)` to `bcrypt::verify(password, hash)`,
so the stored hash travels in the password position and the presented token
in the hash position; the argument order here reproduces that exactly.
A primitive failure becomes `Error::bcrypt_verify`. -/
def AdminConfig.verify (cfg : AdminConfig) (token : XApiToken) :
    Except Error Bool :=
  match bcryptVerify cfg.hashed_api_token token.val with
  | .ok b => .ok b
  | .error e => .error (Error.bcrypt_verify e)

/-- `struct Admin { db: Data<Db> }` (lines 39-41). -/
structure Admin : Type where
  db : Db
deriving DecidableEq

/-- `Admin::verify` (lines 44-59): config lookup, then header parse, then
`AdminConfig::verify`, then store lookup; each failure becomes the
corresponding `Error`, a `false` verification becomes `Error::invalid()`. -/
def Admin.verify (req : HttpRequest) : Except Error Admin :=
  match req.app_admin_config with
  | none => .error Error.missing_config
  | some cfg =>
    match XApiToken.parse req with
    | .error e => .error (Error.parse_header e)
    | .ok tok =>
      match AdminConfig.verify cfg tok with
      | .error e => .error e
      | .ok true =>
        match req.app_db with
        | none => .error Error.missing_db
        | some db => .ok ⟨db⟩
      | .ok false => .error Error.invalid

/-- `<Admin as FromRequest>::from_request` (lines 153-160): immediately
ready with `Admin::verify(req)`. -/
def Admin.from_request (req : HttpRequest) : Except Error Admin :=
  Admin.verify req

/-- `true` exactly when the guard pipeline up to and including verification
succeeds on the request: the config is present, the header parses, and
`AdminConfig::verify` returns `Ok(true)`. -/
def verificationSucceeded (req : HttpRequest) : Bool :=
  match req.app_admin_config with
  | none => false
  | some cfg =>
    match XApiToken.parse req with
    | .error _ => false
    | .ok tok => AdminConfig.verify cfg tok == .ok true

/-! ## Helper lemmas -/

/-- `AdminConfig::verify` errors exactly by wrapping a primitive
`bcrypt::verify` error into `Error::bcrypt_verify`. -/
lemma adminConfig_verify_error_shape (cfg : AdminConfig) (tok : XApiToken)
    (e : Error) (h : AdminConfig.verify cfg tok = .error e) :
    ∃ be, bcryptVerify cfg.hashed_api_token tok.val = .error be ∧
      e = Error.bcrypt_verify be := by
  unfold AdminConfig.verify at h
  cases hb : bcryptVerify cfg.hashed_api_token tok.val with
  | ok b => rw [hb] at h; simp at h
  | error be =>
    rw [hb] at h
    simp at h
    exact ⟨be, rfl, h.symm⟩

/-- The display string of an `ErrorKind` depends only on its constructor
tag, never on the payload. -/
lemma display_depends_only_on_tag (k₁ k₂ : ErrorKind) (h : k₁.tag = k₂.tag) :
    k₁.display = k₂.display := by
  cases k₁ <;> cases k₂ <;> first | rfl | simp [ErrorKind.tag] at h

/-! ## The claims -/

/-- C1: the spec says `build(S)` then `verify(S)` returns `true` for every
plaintext secret; the code instead passes the stored hash and the presented
token to `bcrypt::verify(password, hash)` in swapped positions, so for the
secret `"s3cr3t"` (bytes `[115,51,99,114,51,116]`, any salt — here 22 bytes
of `A`) the plaintext is parsed as a bcrypt hash string, which fails, and
`verify` returns the `BCryptVerify(InvalidHash)` error instead of `true`. -/
theorem build_then_verify_rejects_plain_secret :
    (AdminConfig.build [115, 51, 99, 114, 51, 116] (List.replicate 22 65)).map
      (fun cfg => cfg.verify ⟨[115, 51, 99, 114, 51, 116]⟩) =
    .ok (.error (Error.bcrypt_verify
      (.invalidHash [115, 51, 99, 114, 51, 116]))) := by decide

/-- C2 counterexample: a request with two `x-api-token` headers (values
`a` and `b`) does not fail with `ParseHeader`; the codec silently accepts
the first occurrence. -/
theorem duplicate_header_accepts_first_cex :
    (([(xApiTokenName, [97]), (xApiTokenName, [98])] :
        List (RStr × RStr)).countP (fun p => p.1 == xApiTokenName)) = 2 ∧
    XApiToken.parse ⟨none, none, [(xApiTokenName, [97]), (xApiTokenName, [98])]⟩ =
      .ok ⟨[97]⟩ := by decide

/-- C2 (amended): with two or more occurrences of `x-api-token`, decoding
does not fail; actix `HeaderMap::get` returns the first occurrence, and
whenever its value is valid header text `s` the codec yields `s`, silently
ignoring the later occurrences. -/
theorem duplicate_header_selects_first (c : Option AdminConfig)
    (d : Option Db) (v₁ v₂ : RStr) (rest : List (RStr × RStr)) (s : RStr)
    (h : headerValueToStr v₁ = some s) :
    XApiToken.parse ⟨c, d, (xApiTokenName, v₁) :: (xApiTokenName, v₂) :: rest⟩ =
      .ok ⟨s⟩ := by
  have hfind : List.find? (fun p => p.1 == xApiTokenName)
      ((xApiTokenName, v₁) :: (xApiTokenName, v₂) :: rest) =
      some (xApiTokenName, v₁) :=
    List.find?_cons_of_pos _ (by simp)
  simp [XApiToken.parse, headersGet, hfind, from_one_raw_str, h,
    XApiToken.from_str]

/-- C2 witness: the amended claim at the concrete two-header request. -/
theorem duplicate_header_selects_first_witness :
    XApiToken.parse ⟨none, none, [(xApiTokenName, [97]), (xApiTokenName, [98])]⟩ =
      .ok ⟨[97]⟩ :=
  duplicate_header_selects_first none none [97] [98] [] [97] (by decide)

/-- C5: whenever the `AdminConfig` app-data slot is absent, the guard
returns `MissingConfig`, whatever the header map and store slot hold — the
config lookup is the first step of `Admin::verify`. -/
theorem missing_config_precedes_header (req : HttpRequest)
    (h : req.app_admin_config = none) :
    Admin.verify req = .error Error.missing_config := by
  simp [Admin.verify, h]

/-- C5 witness: a request with a present store handle and a well-formed
header but no config still yields `MissingConfig`. -/
theorem missing_config_precedes_header_witness :
    Admin.verify ⟨none, some ⟨0⟩, [(xApiTokenName, [97])]⟩ =
      .error Error.missing_config :=
  missing_config_precedes_header ⟨none, some ⟨0⟩, [(xApiTokenName, [97])]⟩ rfl

/-- C10: `XApiToken`'s `FromStr` is infallible and verbatim (every byte
string, the empty one included, is accepted unchanged, with no trimming or
validation), so decoding fails exactly when the header is absent or its
value is not valid header text (`to_str` fails). -/
theorem xapitoken_decode_total_characterisation :
    (∀ s : RStr, XApiToken.from_str s = .ok ⟨s⟩) ∧
    (XApiToken.from_str [] = .ok ⟨[]⟩) ∧
    (∀ req v s, headersGet req.headers xApiTokenName = some v →
      headerValueToStr v = some s → XApiToken.parse req = .ok ⟨s⟩) ∧
    (∀ req, headersGet req.headers xApiTokenName = none →
      XApiToken.parse req = .error .header) ∧
    (∀ req v, headersGet req.headers xApiTokenName = some v →
      headerValueToStr v = none → XApiToken.parse req = .error .header) := by
  refine ⟨fun s => rfl, rfl, ?_, ?_, ?_⟩
  · intro req v s hg hv
    simp [XApiToken.parse, from_one_raw_str, hg, hv, XApiToken.from_str]
  · intro req hg
    simp [XApiToken.parse, from_one_raw_str, hg]
  · intro req v hg hv
    simp [XApiToken.parse, from_one_raw_str, hg, hv]

/-- C10 witness: the characterisation at concrete requests — empty-string
token accepted verbatim, present valid header decoded, absent header and
non-ASCII header value rejected. -/
theorem xapitoken_decode_total_characterisation_witness :
    XApiToken.from_str [] = .ok ⟨[]⟩ ∧
    XApiToken.parse ⟨none, none, [(xApiTokenName, [97])]⟩ = .ok ⟨[97]⟩ ∧
    XApiToken.parse ⟨none, none, []⟩ = .error .header ∧
    XApiToken.parse ⟨none, none, [(xApiTokenName, [195, 169])]⟩ =
      .error .header :=
  ⟨xapitoken_decode_total_characterisation.1 [],
   xapitoken_decode_total_characterisation.2.2.1
     ⟨none, none, [(xApiTokenName, [97])]⟩ [97] [97] (by decide) (by decide),
   xapitoken_decode_total_characterisation.2.2.2.1 ⟨none, none, []⟩ rfl,
   xapitoken_decode_total_characterisation.2.2.2.2
     ⟨none, none, [(xApiTokenName, [195, 169])]⟩ [195, 169]
     (by decide) (by decide)⟩

/-- C3: `AdminConfig::verify` errors only by wrapping a primitive
`bcrypt::verify` error; when the primitive answers normally with `false`
(the presented token does not match), the guard maps that to
`Error::invalid()` under status 400, and a primitive error propagates as
the distinct `BCryptVerify` kind under status 500. -/
theorem verify_error_taxonomy (cfg : AdminConfig) (tok : XApiToken) :
    (∀ e, cfg.verify tok = .error e →
      ∃ be, bcryptVerify cfg.hashed_api_token tok.val = .error be ∧
        e = Error.bcrypt_verify be) ∧
    (∀ req, req.app_admin_config = some cfg → XApiToken.parse req = .ok tok →
      (cfg.verify tok = .ok false →
        Admin.verify req = .error Error.invalid ∧
        Error.invalid.status_code = 400) ∧
      (∀ be, cfg.verify tok = .error (Error.bcrypt_verify be) →
        Admin.verify req = .error (Error.bcrypt_verify be) ∧
        (Error.bcrypt_verify be).status_code = 500)) := by
  refine ⟨fun e he => adminConfig_verify_error_shape cfg tok e he, ?_⟩
  intro req hcfg hp
  constructor
  · intro hv
    refine ⟨?_, rfl⟩
    simp [Admin.verify, hcfg, hp, hv]
  · intro be hv
    refine ⟨?_, rfl⟩
    simp [Admin.verify, hcfg, hp, hv]

/-- Concrete config for the C3 witness: an arbitrary stored hash string. -/
def c3cfg : AdminConfig := ⟨[104]⟩

/-- Concrete token for the C3 witness: a well-formed bcrypt hash string
whose checksum does not match, so the (swapped-argument) primitive answers
`Ok(false)`. -/
def c3tok : XApiToken :=
  ⟨formatHashParts ⟨12, List.replicate 22 66, List.replicate 31 65⟩⟩

/-- Concrete request for the C3 witness. -/
def c3req : HttpRequest := ⟨some c3cfg, none, [(xApiTokenName, c3tok.val)]⟩

/-- C3 witness: at the concrete mismatching token the guard yields
`Invalid` with status 400. -/
theorem verify_error_taxonomy_witness :
    Admin.verify c3req = .error Error.invalid ∧
    Error.invalid.status_code = 400 :=
  ((verify_error_taxonomy c3cfg c3tok).2 c3req rfl (by decide)).1 (by decide)

/-- C4: the status mapping is exactly `Invalid`/`ParseHeader` to 400 and
`MissingConfig`/`MissingDb`/`BCryptVerify` to 500, and those five families
are the only error values `Admin::verify` can produce. -/
theorem status_code_mapping :
    Error.invalid.status_code = 400 ∧
    (∀ pe, (Error.parse_header pe).status_code = 400) ∧
    Error.missing_config.status_code = 500 ∧
    Error.missing_db.status_code = 500 ∧
    (∀ be, (Error.bcrypt_verify be).status_code = 500) ∧
    (∀ req e, Admin.verify req = .error e →
      e = Error.invalid ∨ e = Error.missing_config ∨ e = Error.missing_db ∨
      (∃ pe, e = Error.parse_header pe) ∨
      (∃ be, e = Error.bcrypt_verify be)) := by
  refine ⟨rfl, fun pe => rfl, rfl, rfl, fun be => rfl, ?_⟩
  intro req e h
  cases hc : req.app_admin_config with
  | none =>
    simp [Admin.verify, hc] at h
    right; left; exact h.symm
  | some cfg =>
    cases hp : XApiToken.parse req with
    | error pe =>
      simp [Admin.verify, hc, hp] at h
      right; right; right; left; exact ⟨pe, h.symm⟩
    | ok tok =>
      cases hv : AdminConfig.verify cfg tok with
      | error e₀ =>
        simp [Admin.verify, hc, hp, hv] at h
        obtain ⟨be, _, hbe⟩ := adminConfig_verify_error_shape cfg tok e₀ hv
        right; right; right; right
        exact ⟨be, by rw [← h, hbe]⟩
      | ok b =>
        cases b with
        | false =>
          simp [Admin.verify, hc, hp, hv] at h
          left; exact h.symm
        | true =>
          cases hd : req.app_db with
          | none =>
            simp [Admin.verify, hc, hp, hv, hd] at h
            right; right; left; exact h.symm
          | some db => simp [Admin.verify, hc, hp, hv, hd] at h

/-- C4 witness: the mapping at a `ParseHeader` and a `BCryptVerify` value,
and the only-those-kinds property at a request with no config. -/
theorem status_code_mapping_witness :
    (Error.parse_header .header).status_code = 400 ∧
    (Error.bcrypt_verify (.invalidHash [97])).status_code = 500 ∧
    (Error.missing_config = Error.invalid ∨
      Error.missing_config = Error.missing_config ∨
      Error.missing_config = Error.missing_db ∨
      (∃ pe, Error.missing_config = Error.parse_header pe) ∨
      (∃ be, Error.missing_config = Error.bcrypt_verify be)) :=
  ⟨status_code_mapping.2.1 .header,
   status_code_mapping.2.2.2.2.1 (.invalidHash [97]),
   status_code_mapping.2.2.2.2.2 ⟨none, none, []⟩ Error.missing_config rfl⟩

/-- C6: with the config present, the header parsed, and verification
answering `Ok(true)`, an absent store slot yields `MissingDb`; and when
verification does not answer `Ok(true)`, the guard's result is the same
whatever the store slot holds — the store lookup happens only after a
successful verification. -/
theorem missing_db_after_successful_verify (req : HttpRequest)
    (cfg : AdminConfig) (tok : XApiToken)
    (hcfg : req.app_admin_config = some cfg)
    (hp : XApiToken.parse req = .ok tok) :
    (cfg.verify tok = .ok true → req.app_db = none →
      Admin.verify req = .error Error.missing_db) ∧
    (cfg.verify tok ≠ .ok true → ∀ d₁ d₂ : Option Db,
      Admin.verify { req with app_db := d₁ } =
        Admin.verify { req with app_db := d₂ }) := by
  have hparse : ∀ (x : Option AdminConfig) (d : Option Db),
      XApiToken.parse ⟨x, d, req.headers⟩ = .ok tok :=
    fun x d => hp
  constructor
  · intro hv hdb
    simp [Admin.verify, hcfg, hp, hv, hdb]
  · intro hv d₁ d₂
    cases hb : cfg.verify tok with
    | ok b =>
      cases b with
      | true => exact absurd hb hv
      | false => simp [Admin.verify, hcfg, hparse, hb]
    | error e => simp [Admin.verify, hcfg, hparse, hb]

/-- Concrete config for the C6 witness. -/
def c6cfg : AdminConfig := ⟨[104]⟩

/-- Concrete token for the C6 witness: a well-formed bcrypt hash string
whose checksum is exactly the digest the (swapped-argument) primitive
recomputes, so verification answers `Ok(true)`. -/
def c6tok : XApiToken :=
  ⟨formatHashParts ⟨12, List.replicate 22 66,
    bcryptDigest [104] (List.replicate 22 66) 12⟩⟩

/-- Concrete request for the C6 witness: matching token, no store slot. -/
def c6req : HttpRequest := ⟨some c6cfg, none, [(xApiTokenName, c6tok.val)]⟩

/-- C6 witness: the concrete request with a verifying token but no store
handle yields `MissingDb`. -/
theorem missing_db_after_successful_verify_witness :
    Admin.verify c6req = .error Error.missing_db :=
  (missing_db_after_successful_verify c6req c6cfg c6tok rfl (by decide)).1
    (by decide) rfl

/-- C7: every `Admin` value the guard returns certifies that the
verification pipeline succeeded — config present, header parsed, and
`AdminConfig::verify` answering `Ok(true)` — and that its store handle is
the one found in the request's app data; `Admin::verify` (reachable only
through `from_request`) is the sole producer of `Admin` values in this
model, as the private `Admin` struct is in the source module. -/
theorem admin_requires_successful_verification (req : HttpRequest)
    (a : Admin) (h : Admin.verify req = .ok a) :
    verificationSucceeded req = true ∧ req.app_db = some a.db := by
  cases hc : req.app_admin_config with
  | none => simp [Admin.verify, hc] at h
  | some cfg =>
    cases hp : XApiToken.parse req with
    | error pe => simp [Admin.verify, hc, hp] at h
    | ok tok =>
      cases hv : AdminConfig.verify cfg tok with
      | error e => simp [Admin.verify, hc, hp, hv] at h
      | ok b =>
        cases b with
        | false => simp [Admin.verify, hc, hp, hv] at h
        | true =>
          cases hd : req.app_db with
          | none => simp [Admin.verify, hc, hp, hv, hd] at h
          | some db =>
            simp [Admin.verify, hc, hp, hv, hd] at h
            refine ⟨by simp [verificationSucceeded, hc, hp, hv], ?_⟩
            rw [← h]

/-- Concrete request for the C7 witness: matching token, store present. -/
def c7req : HttpRequest :=
  ⟨some ⟨[104]⟩, some ⟨0⟩,
    [(xApiTokenName, formatHashParts ⟨12, List.replicate 22 66,
      bcryptDigest [104] (List.replicate 22 66) 12⟩)]⟩

/-- C7 witness: at the concrete successful request, the returned capability
implies a succeeded verification and carries the store handle from the
request context. -/
theorem admin_requires_successful_verification_witness :
    verificationSucceeded c7req = true ∧ c7req.app_db = some (Admin.mk ⟨0⟩).db :=
  admin_requires_successful_verification c7req ⟨⟨0⟩⟩ (by decide)

/-- C8 counterexample: the two-byte string `é` (UTF-8 bytes `[195, 169]`)
is representable as a valid header value — `HeaderValue::from_str` accepts
every byte `>= 32` other than 127 — yet decoding that value through the
codec fails, because `to_str` inside `from_one_raw_str` rejects non-ASCII
bytes; so encode-then-decode does not return the original string. -/
theorem header_roundtrip_fails_on_nonascii_cex :
    XApiToken.try_into_value ⟨[195, 169]⟩ = .ok [195, 169] ∧
    from_one_raw_str (some [195, 169]) = .error .header ∧
    XApiToken.parse ⟨none, none, [(xApiTokenName, [195, 169])]⟩ =
      .error .header := by decide

/-- C8 (amended): the round trip holds exactly on the strings `to_str`
accepts: for every string whose bytes are all visible ASCII (32..126) or
tab, encoding via `try_into_value` succeeds and decoding the resulting
header value through the codec returns the original string unchanged. -/
theorem header_roundtrip_visible_ascii (s : RStr)
    (h : s.all isVisibleAsciiByte = true) :
    XApiToken.try_into_value ⟨s⟩ = .ok s ∧
    XApiToken.parse ⟨none, none, [(xApiTokenName, s)]⟩ = .ok ⟨s⟩ := by
  have hv : s.all isValidHeaderByte = true := by
    rw [List.all_eq_true] at h ⊢
    intro b hb
    have hb' := h b hb
    unfold isVisibleAsciiByte at hb'
    unfold isValidHeaderByte
    simp at hb' ⊢
    omega
  refine ⟨?_, ?_⟩
  · simp [XApiToken.try_into_value, headerValueFromStr, hv]
  · simp [XApiToken.parse, headersGet, List.find?, from_one_raw_str,
      headerValueToStr, h, XApiToken.from_str]

/-- C8 witness: the amended round trip at the one-byte string `a`. -/
theorem header_roundtrip_visible_ascii_witness :
    XApiToken.try_into_value ⟨[97]⟩ = .ok [97] ∧
    XApiToken.parse ⟨none, none, [(xApiTokenName, [97])]⟩ = .ok ⟨[97]⟩ :=
  header_roundtrip_visible_ascii [97] (by decide)

/-- C9: every failure response is the JSON object with the single field
`msg` holding the display string of the error kind under that kind's status
code; the display string depends only on the kind's constructor tag, never
on any payload, so any two guard failures of the same kind — in particular
two requests differing only in the presented token — carry identical
messages, which therefore cannot embed the presented token or the secret. -/
theorem error_response_shape_and_independence :
    (∀ e : Error, e.error_response =
      ⟨e.status_code, Json.obj [("msg", Json.str (e.kind.display))]⟩) ∧
    (∀ k₁ k₂ : ErrorKind, k₁.tag = k₂.tag → k₁.display = k₂.display) ∧
    (∀ (req₁ req₂ : HttpRequest) (e₁ e₂ : Error),
      Admin.verify req₁ = .error e₁ → Admin.verify req₂ = .error e₂ →
      e₁.kind.tag = e₂.kind.tag → e₁.kind.display = e₂.kind.display) :=
  ⟨fun _ => rfl, display_depends_only_on_tag,
   fun _ _ e₁ e₂ _ _ ht => display_depends_only_on_tag e₁.kind e₂.kind ht⟩

/-- C9 witness: the shape at `Invalid`, payload-independence of the
`BCryptVerify` message at two different primitive errors, and identical
messages for two different requests that both fail with `MissingConfig`. -/
theorem error_response_shape_and_independence_witness :
    Error.invalid.error_response =
      ⟨Error.invalid.status_code,
        Json.obj [("msg", Json.str (Error.invalid.kind.display))]⟩ ∧
    (ErrorKind.bCryptVerify (.invalidHash [97])).display =
      (ErrorKind.bCryptVerify (.invalidHash [98])).display ∧
    Error.missing_config.kind.display = Error.missing_config.kind.display :=
  ⟨error_response_shape_and_independence.1 Error.invalid,
   error_response_shape_and_independence.2.1
     (.bCryptVerify (.invalidHash [97])) (.bCryptVerify (.invalidHash [98]))
     rfl,
   error_response_shape_and_independence.2.2
     ⟨none, none, []⟩ ⟨none, some ⟨0⟩, [(xApiTokenName, [97])]⟩
     Error.missing_config Error.missing_config rfl rfl rfl⟩
